import Mathlib

/-!
Embedded Sentry: gesture capture, similarity scoring and the button state machine.

A shallow embedding of `src/src/main.cpp`.

* Single-precision values are read over a linearly ordered field `α` (the real
  numbers in the theorems), with the square root passed as a parameter so that
  every definition stays executable.  The one float operation that has no real
  value on a reachable path, the division `totalDiff / minSamples` with
  `minSamples = 0`, is made explicit: `calculateSimilarity` returns `none`
  there (IEEE-754 gives NaN for `0.0f / 0`).  The exact score and the
  single-precision score differ by rounding, so the statement about the
  threshold test keeps a margin around a mean distance of 1.
* The arrays `x`, `y`, `z` of `GestureData` are functions of the index.
* `Timer` objects are ideal millisecond clocks.  The readings that a capture
  loop sees and the triples that `readGyroscopeData` delivers are inputs.
* The text written to the serial port is kept as a list of `Msg`; LED writes and
  sleeps change none of the variables modelled here and are left out.
-/

set_option autoImplicit false

namespace Sentry

/-! ## Constants -/

def SPI_FLAG : Nat := 1
def BUTTON_FLAG : Nat := 2
def MAX_SAMPLES : Nat := 100
def GESTURE_DURATION : Int := 3000
def SAMPLE_INTERVAL : Nat := 30

/-- The constant `SIMILARITY_THRESHOLD`, 0.5. -/
def SIMILARITY_THRESHOLD {α : Type} [LinearOrderedField α] : α := 1 / 2

/-! ## Data structures -/

/-- The struct `GestureData`: three sample arrays and the sample count (`int`). -/
structure GestureData (α : Type) where
  x : Nat → α
  y : Nat → α
  z : Nat → α
  samples : Int

/-- A `GestureData` after `memset(&g, 0, sizeof(GestureData))`. -/
def GestureData.zeroed {α : Type} [Zero α] : GestureData α :=
  { x := fun _ => 0, y := fun _ => 0, z := fun _ => 0, samples := 0 }

/-- Array store `a[i] = v`. -/
def setAt {α : Type} (a : Nat → α) (i : Nat) (v : α) : Nat → α :=
  fun j => if j = i then v else a j

/-! ## Similarity -/

/-- The term added to `totalDiff` by iteration `i` of the loop in
`calculateSimilarity`: `sqrt(dx*dx + dy*dy + dz*dz)`. -/
def sampleDiff {α : Type} [LinearOrderedField α] (sqrt : α → α)
    (g1 g2 : GestureData α) (i : Nat) : α :=
  let dx := g1.x i - g2.x i
  let dy := g1.y i - g2.y i
  let dz := g1.z i - g2.z i
  sqrt (dx * dx + dy * dy + dz * dz)

/-- The value of `totalDiff` after the `for` loop of `calculateSimilarity` has
run its first `n` iterations (`i = 0, …, n - 1`), starting from `0`. -/
def totalDiff {α : Type} [LinearOrderedField α] (sqrt : α → α)
    (g1 g2 : GestureData α) : Nat → α
  | 0 => 0
  | n + 1 => totalDiff sqrt g1 g2 n + sampleDiff sqrt g1 g2 n

/-- The function `calculateSimilarity`.  The loop runs for `i < minSamples`, that
is `minSamples.toNat` times.  With `minSamples = 0` the loop body never runs and
`totalDiff / minSamples` is `0.0f / 0`, which is NaN and stays NaN through
`1.0f / (1.0f + avgDiff)`: the result is `none`. -/
def calculateSimilarity {α : Type} [LinearOrderedField α] (sqrt : α → α)
    (g1 g2 : GestureData α) : Option α :=
  let minSamples : Int := min g1.samples g2.samples
  let total : α := totalDiff sqrt g1 g2 minSamples.toNat
  if minSamples = 0 then none
  else
    let avgDiff : α := total / (minSamples : α)
    some (1 / (1 + avgDiff))

/-- The test `similarity > SIMILARITY_THRESHOLD` of `verifyGesture`; a comparison
with NaN is false. -/
def aboveThreshold {α : Type} [LinearOrderedField α] : Option α → Bool
  | some similarity => decide (similarity > SIMILARITY_THRESHOLD)
  | none => false

/-! ## Serial output -/

/-- The `printf` lines of `recordGesture` and `verifyGesture` (the per-sample
telemetry of `readGyroscopeData` is not recorded). -/
inductive Msg where
  | recording
  | recorded (sampleCount : Nat)
  | noGestureStored
  | verifying
  | similarity
  | accessGranted
  | accessDenied
  deriving DecidableEq, Repr

/-! ## Capture loops -/

/-- Result of a capture loop: the buffer, the final `sampleCount`, and the
buffer indices handed to `readGyroscopeData`, in the order they were written. -/
structure Capture (α : Type) where
  buffer : GestureData α
  sampleCount : Nat
  written : List Nat

/-- The loop
`while (timer.read_ms() < GESTURE_DURATION && sampleCount < MAX_SAMPLES)`
shared by `recordGesture` and `verifyGesture`.  `clock n` is what `read_ms()`
returns at the loop test made with `sampleCount = n`; `gyro n` is the triple
stored by the call of `readGyroscopeData` made with `sampleCount = n`. -/
def captureLoop {α : Type} (clock : Nat → Int) (gyro : Nat → α × α × α)
    (buffer : GestureData α) (sampleCount : Nat) (written : List Nat) : Capture α :=
  if _h : clock sampleCount < GESTURE_DURATION ∧ sampleCount < MAX_SAMPLES then
    captureLoop clock gyro
      { buffer with
        x := setAt buffer.x sampleCount (gyro sampleCount).1
        y := setAt buffer.y sampleCount (gyro sampleCount).2.1
        z := setAt buffer.z sampleCount (gyro sampleCount).2.2 }
      (sampleCount + 1) (written ++ [sampleCount])
  else
    { buffer := buffer, sampleCount := sampleCount, written := written }
termination_by MAX_SAMPLES - sampleCount
decreasing_by omega

/-- A whole capture: zero the buffer, run the loop from `sampleCount = 0`, then
store `samples = sampleCount`. -/
def capture {α : Type} [Zero α] (clock : Nat → Int) (gyro : Nat → α × α × α) :
    Capture α :=
  let c := captureLoop clock gyro GestureData.zeroed 0 []
  { c with buffer := { c.buffer with samples := (c.sampleCount : Int) } }

/-! ## Engine -/

/-- The globals `savedGesture`, `gestureStored`, `isRecordMode`, and the serial
output so far. -/
structure Engine (α : Type) where
  savedGesture : GestureData α
  gestureStored : Bool
  isRecordMode : Bool
  out : List Msg

/-- State at the start of `main`. -/
def Engine.powerOn {α : Type} [Zero α] : Engine α :=
  { savedGesture := GestureData.zeroed, gestureStored := false, isRecordMode := true,
    out := [] }

/-- The function `recordGesture`. -/
def recordGesture {α : Type} [Zero α] (clock : Nat → Int) (gyro : Nat → α × α × α)
    (s : Engine α) : Engine α :=
  let c := capture clock gyro
  { s with
    savedGesture := c.buffer
    gestureStored := true
    out := s.out ++ [Msg.recording, Msg.recorded c.sampleCount] }

/-- The branch of `verifyGesture` chosen by `similarity > SIMILARITY_THRESHOLD`. -/
def verifyBranch {α : Type} [LinearOrderedField α] (sqrt : α → α)
    (savedGesture currentGesture : GestureData α) : Msg :=
  if aboveThreshold (calculateSimilarity sqrt savedGesture currentGesture) then
    Msg.accessGranted
  else
    Msg.accessDenied

/-- The function `verifyGesture`. -/
def verifyGesture {α : Type} [LinearOrderedField α] (sqrt : α → α)
    (clock : Nat → Int) (gyro : Nat → α × α × α) (s : Engine α) : Engine α :=
  if !s.gestureStored then
    { s with out := s.out ++ [Msg.noGestureStored], isRecordMode := true }
  else
    let currentGesture := (capture clock gyro).buffer
    { s with
      out := s.out ++
        [Msg.verifying, Msg.similarity, verifyBranch sqrt s.savedGesture currentGesture] }

/-- One iteration of the `while (true)` loop of `main`; `flags_read` is what
`flags.wait_any(BUTTON_FLAG)` returned. -/
def mainIteration {α : Type} [LinearOrderedField α] (sqrt : α → α)
    (flags_read : Nat) (clock : Nat → Int) (gyro : Nat → α × α × α)
    (s : Engine α) : Engine α :=
  if flags_read &&& BUTTON_FLAG ≠ 0 then
    let s1 := if s.isRecordMode then recordGesture clock gyro s
              else verifyGesture sqrt clock gyro s
    { s1 with isRecordMode := !s1.isRecordMode }
  else
    s

/-- The `while (true)` loop of `main` run for a finite number of iterations; each
iteration comes with the value returned by `flags.wait_any(BUTTON_FLAG)` and the
clock readings and gyroscope triples of its capture. -/
def mainLoop {α : Type} [LinearOrderedField α] (sqrt : α → α) :
    Engine α → List (Nat × (Nat → Int) × (Nat → α × α × α)) → Engine α
  | s, [] => s
  | s, p :: ps => mainLoop sqrt (mainIteration sqrt p.1 p.2.1 p.2.2 s) ps

/-! ## Button debounce -/

/-- The `debounceTimer` (the time of its last `start()`/`reset()`) and the event
flag bits. -/
structure ButtonState where
  timerStart : Int
  flags : Nat
  deriving DecidableEq, Repr

/-- The call `debounceTimer.read_ms()` at time `now`. -/
def ButtonState.read_ms (b : ButtonState) (now : Int) : Int := now - b.timerStart

/-- State after `debounceTimer.start()` at time `t0` in `main`. -/
def ButtonState.boot (t0 : Int) : ButtonState := { timerStart := t0, flags := 0 }

/-- The interrupt handler `handleButton`, run for a rising edge at time `now`.
The second component tells whether `flags.set(BUTTON_FLAG)` was executed. -/
def handleButton (now : Int) (b : ButtonState) : ButtonState × Bool :=
  if b.read_ms now > 200 then
    ({ timerStart := now, flags := b.flags ||| BUTTON_FLAG }, true)
  else
    (b, false)

/-- Feed rising edges at the given times to `handleButton`, in order; returns the
times of the edges for which `BUTTON_FLAG` was set. -/
def feedEdges : ButtonState → List Int → List Int
  | _, [] => []
  | b, t :: ts =>
    let r := handleButton t b
    if r.2 then t :: feedEdges r.1 ts else feedEdges r.1 ts


/-! ## Specification-side notions and sample inputs -/

/-- Mean per-sample Euclidean distance in the words of the specification: with
`m = min(A.n, B.n)`, the sum over `i < m` of `‖A[i] − B[i]‖₂`, divided by `m`. -/
def meanDistance {α : Type} [LinearOrderedField α] (sqrt : α → α)
    (A B : GestureData α) : α :=
  (∑ i in Finset.range (min A.samples B.samples).toNat,
      sqrt ((A.x i - B.x i) ^ 2 + (A.y i - B.y i) ^ 2 + (A.z i - B.z i) ^ 2)) /
    ((min A.samples B.samples : Int) : α)

/-- The template `B` with `δ` added to the x, y and z component of every sample. -/
def GestureData.offset {α : Type} [LinearOrderedField α] (B : GestureData α) (δ : α) :
    GestureData α :=
  { x := fun i => B.x i + δ, y := fun i => B.y i + δ, z := fun i => B.z i + δ,
    samples := B.samples }

/-- A template of `n` samples, all equal to `(vx, vy, vz)`. -/
def GestureData.const {α : Type} (vx vy vz : α) (n : Int) : GestureData α :=
  { x := fun _ => vx, y := fun _ => vy, z := fun _ => vz, samples := n }

/-- The template of scenario 1: samples `(i·0.01, 0, 0)` for `i = 0..99`. -/
def GestureData.ramp {α : Type} [LinearOrderedField α] : GestureData α :=
  { x := fun i => (i : α) * (1 / 100), y := fun _ => 0, z := fun _ => 0, samples := 100 }

/-- A clock that reads `75 * n` ms at the loop test made after `n` samples, so
that it first reaches `GESTURE_DURATION` after 40 samples. -/
def clock75 : Nat → Int := fun n => 75 * (n : Int)

/-- A gyroscope at rest. -/
def gyroAtRest : Nat → Int × Int × Int := fun _ => (0, 0, 0)

/-! ## Capture loop: termination value, indices written, buffer contents -/

theorem captureLoop_step {α : Type} (clock : Nat → Int) (gyro : Nat → α × α × α)
    (buffer : GestureData α) (n : Nat) (w : List Nat)
    (h : clock n < GESTURE_DURATION ∧ n < MAX_SAMPLES) :
    captureLoop clock gyro buffer n w =
      captureLoop clock gyro
        { buffer with
          x := setAt buffer.x n (gyro n).1
          y := setAt buffer.y n (gyro n).2.1
          z := setAt buffer.z n (gyro n).2.2 }
        (n + 1) (w ++ [n]) := by
  rw [captureLoop, dif_pos h]

theorem captureLoop_stop {α : Type} (clock : Nat → Int) (gyro : Nat → α × α × α)
    (buffer : GestureData α) (n : Nat) (w : List Nat)
    (h : ¬ (clock n < GESTURE_DURATION ∧ n < MAX_SAMPLES)) :
    captureLoop clock gyro buffer n w =
      { buffer := buffer, sampleCount := n, written := w } := by
  rw [captureLoop, dif_neg h]

theorem captureLoop_count_ge {α : Type} (clock : Nat → Int) (gyro : Nat → α × α × α)
    (buffer : GestureData α) (n : Nat) (w : List Nat) :
    n ≤ (captureLoop clock gyro buffer n w).sampleCount := by
  induction buffer, n, w using captureLoop.induct clock gyro with
  | case1 buffer n w h ih => rw [captureLoop_step _ _ _ _ _ h]; omega
  | case2 buffer n w h => rw [captureLoop_stop _ _ _ _ _ h]

theorem captureLoop_count_le {α : Type} (clock : Nat → Int) (gyro : Nat → α × α × α)
    (buffer : GestureData α) (n : Nat) (w : List Nat) (hn : n ≤ MAX_SAMPLES) :
    (captureLoop clock gyro buffer n w).sampleCount ≤ MAX_SAMPLES := by
  induction buffer, n, w using captureLoop.induct clock gyro with
  | case1 buffer n w h ih => rw [captureLoop_step _ _ _ _ _ h]; exact ih h.2
  | case2 buffer n w h => rw [captureLoop_stop _ _ _ _ _ h]; exact hn

theorem captureLoop_written {α : Type} (clock : Nat → Int) (gyro : Nat → α × α × α)
    (buffer : GestureData α) (n : Nat) (w : List Nat) :
    (captureLoop clock gyro buffer n w).written =
      w ++ List.range' n ((captureLoop clock gyro buffer n w).sampleCount - n) := by
  induction buffer, n, w using captureLoop.induct clock gyro with
  | case1 buffer n w h ih =>
    have hge := captureLoop_count_ge clock gyro
      { buffer with
        x := setAt buffer.x n (gyro n).1
        y := setAt buffer.y n (gyro n).2.1
        z := setAt buffer.z n (gyro n).2.2 } (n + 1) (w ++ [n])
    rw [captureLoop_step _ _ _ _ _ h, ih, List.append_assoc]
    congr 1
    generalize (captureLoop clock gyro _ (n + 1) (w ++ [n])).sampleCount = m at hge
    obtain ⟨k, rfl⟩ : ∃ k, m = n + 1 + k := ⟨m - (n + 1), by omega⟩
    rw [show n + 1 + k - (n + 1) = k by omega, show n + 1 + k - n = k + 1 by omega]
    rfl
  | case2 buffer n w h => rw [captureLoop_stop _ _ _ _ _ h]; simp

theorem captureLoop_below {α : Type} (clock : Nat → Int) (gyro : Nat → α × α × α)
    (buffer : GestureData α) (n : Nat) (w : List Nat) (i : Nat) (h1 : n ≤ i)
    (h2 : i < (captureLoop clock gyro buffer n w).sampleCount) :
    clock i < GESTURE_DURATION := by
  induction buffer, n, w using captureLoop.induct clock gyro with
  | case1 buffer n w h ih =>
    rw [captureLoop_step _ _ _ _ _ h] at h2
    by_cases hi : i = n
    · subst hi; exact h.1
    · exact ih (by omega) h2
  | case2 buffer n w h =>
    rw [captureLoop_stop _ _ _ _ _ h] at h2
    simp only at h2
    omega

theorem captureLoop_exit {α : Type} (clock : Nat → Int) (gyro : Nat → α × α × α)
    (buffer : GestureData α) (n : Nat) (w : List Nat)
    (h1 : (captureLoop clock gyro buffer n w).sampleCount < MAX_SAMPLES) :
    ¬ clock (captureLoop clock gyro buffer n w).sampleCount < GESTURE_DURATION := by
  induction buffer, n, w using captureLoop.induct clock gyro with
  | case1 buffer n w h ih =>
    rw [captureLoop_step _ _ _ _ _ h] at h1 ⊢
    exact ih h1
  | case2 buffer n w h =>
    rw [captureLoop_stop _ _ _ _ _ h] at h1 ⊢
    simp only at h1 ⊢
    intro hc
    exact h ⟨hc, h1⟩

/-! ## Similarity: the loop against the formula -/

theorem totalDiff_eq_sum {α : Type} [LinearOrderedField α] (sqrt : α → α)
    (A B : GestureData α) (n : Nat) :
    totalDiff sqrt A B n =
      ∑ i in Finset.range n,
        sqrt ((A.x i - B.x i) ^ 2 + (A.y i - B.y i) ^ 2 + (A.z i - B.z i) ^ 2) := by
  induction n with
  | zero => simp [totalDiff]
  | succ n ih =>
    rw [totalDiff, ih, Finset.sum_range_succ]
    simp only [sampleDiff, pow_two]

theorem totalDiff_nonneg (A B : GestureData ℝ) (n : Nat) :
    0 ≤ totalDiff Real.sqrt A B n := by
  induction n with
  | zero => simp [totalDiff]
  | succ n ih =>
    rw [totalDiff]
    exact add_nonneg ih (Real.sqrt_nonneg _)

theorem totalDiff_self (A : GestureData ℝ) (n : Nat) :
    totalDiff Real.sqrt A A n = 0 := by
  induction n with
  | zero => simp [totalDiff]
  | succ n ih => rw [totalDiff, ih]; simp [sampleDiff]

theorem calculateSimilarity_of_ne {α : Type} [LinearOrderedField α] (sqrt : α → α)
    (A B : GestureData α) (h : min A.samples B.samples ≠ 0) :
    calculateSimilarity sqrt A B =
      some (1 / (1 + totalDiff sqrt A B (min A.samples B.samples).toNat /
        ((min A.samples B.samples : Int) : α))) := by
  simp only [calculateSimilarity, if_neg h]

theorem calculateSimilarity_of_eq {α : Type} [LinearOrderedField α] (sqrt : α → α)
    (A B : GestureData α) (h : min A.samples B.samples = 0) :
    calculateSimilarity sqrt A B = none := by
  simp only [calculateSimilarity, if_pos h]

theorem calculateSimilarity_eq_mean {α : Type} [LinearOrderedField α] (sqrt : α → α)
    (A B : GestureData α) (h : min A.samples B.samples ≠ 0) :
    calculateSimilarity sqrt A B = some (1 / (1 + meanDistance sqrt A B)) := by
  rw [calculateSimilarity_of_ne sqrt A B h, totalDiff_eq_sum, meanDistance]

theorem meanDistance_nonneg (A B : GestureData ℝ) (h : 1 ≤ min A.samples B.samples) :
    0 ≤ meanDistance Real.sqrt A B := by
  rw [meanDistance]
  apply div_nonneg
  · exact Finset.sum_nonneg (fun i _ => Real.sqrt_nonneg _)
  · have : (0 : ℝ) ≤ ((min A.samples B.samples : Int) : ℝ) := by
      exact_mod_cast (by omega : (0 : Int) ≤ min A.samples B.samples)
    exact this

theorem verifyBranch_granted_iff_above {α : Type} [LinearOrderedField α] (sqrt : α → α)
    (A B : GestureData α) :
    verifyBranch sqrt A B = Msg.accessGranted ↔
      aboveThreshold (calculateSimilarity sqrt A B) = true := by
  unfold verifyBranch
  split <;> simp_all

theorem aboveThreshold_some {α : Type} [LinearOrderedField α] (s : α) :
    aboveThreshold (some s) = true ↔ 1 / 2 < s := by
  show decide (s > SIMILARITY_THRESHOLD) = true ↔ 1 / 2 < s
  rw [decide_eq_true_iff]
  rfl

theorem feedEdges_after_start (b : ButtonState) (ts : List Int) :
    ∀ a ∈ feedEdges b ts, b.timerStart + 200 < a := by
  induction ts generalizing b with
  | nil => intro a ha; simp [feedEdges] at ha
  | cons t ts ih =>
    intro a ha
    by_cases hacc : b.read_ms t > 200
    · have hstep : feedEdges b (t :: ts) =
          t :: feedEdges { timerStart := t, flags := b.flags ||| BUTTON_FLAG } ts := by
        simp [feedEdges, handleButton, hacc]
      rw [hstep] at ha
      have ht : b.timerStart + 200 < t := by
        simp only [ButtonState.read_ms] at hacc
        omega
      rcases List.mem_cons.1 ha with rfl | hmem
      · exact ht
      · have := ih _ a hmem
        simp only at this
        omega
    · have hstep : feedEdges b (t :: ts) = feedEdges b ts := by
        simp [feedEdges, handleButton, hacc]
      rw [hstep] at ha
      exact ih b a ha

theorem feedEdges_pairwise (b : ButtonState) (ts : List Int) :
    (feedEdges b ts).Pairwise (fun a c => a + 200 ≤ c) := by
  induction ts generalizing b with
  | nil => simp [feedEdges]
  | cons t ts ih =>
    by_cases hacc : b.read_ms t > 200
    · have hstep : feedEdges b (t :: ts) =
          t :: feedEdges { timerStart := t, flags := b.flags ||| BUTTON_FLAG } ts := by
        simp [feedEdges, handleButton, hacc]
      rw [hstep]
      refine List.Pairwise.cons ?_ (ih _)
      intro a ha
      have := feedEdges_after_start _ ts a ha
      simp only at this
      omega
    · have hstep : feedEdges b (t :: ts) = feedEdges b ts := by
        simp [feedEdges, handleButton, hacc]
      rw [hstep]
      exact ih b

/-- The invariant of the main loop: VERIFY mode only with a stored gesture, and
the "No gesture stored" line never printed. -/
theorem mainIteration_invariant {α : Type} [LinearOrderedField α] (sqrt : α → α)
    (flags_read : Nat) (clock : Nat → Int) (gyro : Nat → α × α × α) (s : Engine α)
    (h1 : s.isRecordMode = false → s.gestureStored = true)
    (h2 : Msg.noGestureStored ∉ s.out) :
    ((mainIteration sqrt flags_read clock gyro s).isRecordMode = false →
      (mainIteration sqrt flags_read clock gyro s).gestureStored = true) ∧
    Msg.noGestureStored ∉ (mainIteration sqrt flags_read clock gyro s).out := by
  unfold mainIteration
  by_cases hf : flags_read &&& BUTTON_FLAG ≠ 0
  · rw [if_pos hf]
    cases hm : s.isRecordMode with
    | true =>
      simp only [if_true, recordGesture]
      refine ⟨fun _ => trivial, ?_⟩
      simp [h2]
    | false =>
      have hst := h1 hm
      simp only [Bool.false_eq_true, if_false, verifyGesture, hst, Bool.not_true]
      refine ⟨fun _ => trivial, ?_⟩
      simp [h2, verifyBranch]
      split <;> simp
  · rw [if_neg hf]
    exact ⟨h1, h2⟩

theorem mainLoop_invariant {α : Type} [LinearOrderedField α] (sqrt : α → α)
    (ps : List (Nat × (Nat → Int) × (Nat → α × α × α))) (s : Engine α)
    (h1 : s.isRecordMode = false → s.gestureStored = true)
    (h2 : Msg.noGestureStored ∉ s.out) :
    ((mainLoop sqrt s ps).isRecordMode = false → (mainLoop sqrt s ps).gestureStored = true) ∧
    Msg.noGestureStored ∉ (mainLoop sqrt s ps).out := by
  induction ps generalizing s with
  | nil => exact ⟨h1, h2⟩
  | cons p ps ih =>
    rw [mainLoop]
    obtain ⟨k1, k2⟩ := mainIteration_invariant sqrt p.1 p.2.1 p.2.2 s h1 h2
    exact ih _ k1 k2

/-! ## Similarity score -/

/-- C1: for templates `A`, `B` whose sample counts are both between 1 and 100,
`calculateSimilarity` over the reals returns `1 / (1 + D)`, with `D` the mean over
`i < min(A.samples, B.samples)` of the Euclidean distance between sample `i` of `A`
and of `B`, and that value is strictly greater than 0 and at most 1. -/
theorem calculateSimilarity_bounds (A B : GestureData ℝ)
    (hA : 1 ≤ A.samples ∧ A.samples ≤ 100) (hB : 1 ≤ B.samples ∧ B.samples ≤ 100) :
    ∃ s : ℝ, calculateSimilarity Real.sqrt A B = some s ∧
      s = 1 / (1 + meanDistance Real.sqrt A B) ∧ 0 < s ∧ s ≤ 1 := by
  have hm : 1 ≤ min A.samples B.samples := le_min hA.1 hB.1
  have hD := meanDistance_nonneg A B hm
  refine ⟨_, calculateSimilarity_eq_mean Real.sqrt A B (by omega), rfl, ?_, ?_⟩
  · exact div_pos one_pos (by linarith)
  · rw [div_le_one (by linarith)]
    linarith

theorem calculateSimilarity_bounds_witness :
    (1 ≤ (GestureData.ramp : GestureData ℝ).samples ∧
      (GestureData.ramp : GestureData ℝ).samples ≤ 100) ∧
    (1 ≤ (GestureData.const 0 0 0 40 : GestureData ℝ).samples ∧
      (GestureData.const 0 0 0 40 : GestureData ℝ).samples ≤ 100) ∧
    ∃ s : ℝ, calculateSimilarity Real.sqrt GestureData.ramp (GestureData.const 0 0 0 40)
        = some s ∧
      s = 1 / (1 + meanDistance Real.sqrt GestureData.ramp (GestureData.const 0 0 0 40)) ∧
      0 < s ∧ s ≤ 1 :=
  ⟨by simp [GestureData.ramp], by simp [GestureData.const],
    calculateSimilarity_bounds GestureData.ramp (GestureData.const 0 0 0 40)
      (by simp [GestureData.ramp]) (by simp [GestureData.const])⟩

/-- C2 (the code at the failing input): when `min(A.samples, B.samples) = 0`,
`calculateSimilarity` divides `0.0f` by `0` and returns NaN (`none`), not the
number 0; the caller's test `similarity > SIMILARITY_THRESHOLD` is then false and
`verifyGesture` takes the "Access denied" branch. -/
theorem calculateSimilarity_no_samples (A B : GestureData ℝ)
    (h : min A.samples B.samples = 0) :
    calculateSimilarity Real.sqrt A B = none ∧
    calculateSimilarity Real.sqrt A B ≠ some 0 ∧
    verifyBranch Real.sqrt A B = Msg.accessDenied := by
  have hn := calculateSimilarity_of_eq Real.sqrt A B h
  refine ⟨hn, by rw [hn]; simp, ?_⟩
  simp [verifyBranch, hn, aboveThreshold]

theorem calculateSimilarity_no_samples_witness :
    min (GestureData.const 1 0 0 100 : GestureData ℝ).samples
      (GestureData.zeroed : GestureData ℝ).samples = 0 ∧
    calculateSimilarity Real.sqrt (GestureData.const 1 0 0 100) GestureData.zeroed = none ∧
    calculateSimilarity Real.sqrt (GestureData.const 1 0 0 100) GestureData.zeroed
      ≠ some 0 ∧
    verifyBranch Real.sqrt (GestureData.const 1 0 0 100) GestureData.zeroed
      = Msg.accessDenied :=
  ⟨by simp [GestureData.const, GestureData.zeroed],
    calculateSimilarity_no_samples (GestureData.const 1 0 0 100) GestureData.zeroed
      (by simp [GestureData.const, GestureData.zeroed])⟩

/-- C5: for every template `A` with `A.samples ≥ 1`, `calculateSimilarity(A, A)`
is exactly 1, so the test `similarity > 0.5` passes and `verifyGesture` takes the
"Access granted" branch. -/
theorem calculateSimilarity_self (A : GestureData ℝ) (h : 1 ≤ A.samples) :
    calculateSimilarity Real.sqrt A A = some 1 ∧
    verifyBranch Real.sqrt A A = Msg.accessGranted := by
  have hne : min A.samples A.samples ≠ 0 := by rw [min_self]; omega
  have hs : calculateSimilarity Real.sqrt A A = some 1 := by
    rw [calculateSimilarity_of_ne Real.sqrt A A hne, totalDiff_self]
    simp
  refine ⟨hs, ?_⟩
  rw [verifyBranch_granted_iff_above, hs, aboveThreshold_some]
  norm_num

theorem calculateSimilarity_self_witness :
    1 ≤ (GestureData.ramp : GestureData ℝ).samples ∧
    calculateSimilarity Real.sqrt GestureData.ramp GestureData.ramp = some (1 : ℝ) ∧
    verifyBranch Real.sqrt (GestureData.ramp : GestureData ℝ) GestureData.ramp
      = Msg.accessGranted :=
  ⟨by simp [GestureData.ramp],
    calculateSimilarity_self GestureData.ramp (by simp [GestureData.ramp])⟩

/-- C4 (as stated, refuted): with `A` the single sample `(1, 1, 1)`, `B` the
single sample `(0, 0, 0)` and `δ = 1`, the shifted template `B'` equals `A`, and
`calculateSimilarity(A, B') = 1` is strictly greater than
`calculateSimilarity(A, B) = 1 / (1 + √3)`. -/
theorem offset_can_raise_similarity :
    (0 : ℝ) < 1 ∧
    1 ≤ min (GestureData.const 1 1 1 1 : GestureData ℝ).samples
      (GestureData.const 0 0 0 1 : GestureData ℝ).samples ∧
    ∃ s s' : ℝ,
      calculateSimilarity Real.sqrt (GestureData.const 1 1 1 1)
        (GestureData.const 0 0 0 1) = some s ∧
      calculateSimilarity Real.sqrt (GestureData.const 1 1 1 1)
        ((GestureData.const 0 0 0 1).offset 1) = some s' ∧
      ¬ s' ≤ s := by
  refine ⟨one_pos, by simp [GestureData.const], 1 / (1 + Real.sqrt 3), 1, ?_, ?_, ?_⟩
  · rw [calculateSimilarity_of_ne _ _ _ (by simp [GestureData.const])]
    simp [GestureData.const, totalDiff, sampleDiff]
    norm_num
  · rw [calculateSimilarity_of_ne _ _ _ (by simp [GestureData.const, GestureData.offset])]
    simp [GestureData.const, GestureData.offset, totalDiff, sampleDiff]
  · have h3 : 0 < Real.sqrt 3 := Real.sqrt_pos.2 (by norm_num)
    rw [not_le, div_lt_one (by linarith)]
    linarith

/-- C4 (amended): for templates `A`, `B` with `min(A.samples, B.samples) ≥ 1` and
`δ > 0`, if every component of each of the first `min(A.samples, B.samples)`
samples of `B` is at least the corresponding component of `A`, then adding `δ` to
every component of every sample of `B` does not increase the similarity:
`calculateSimilarity(A, B') ≤ calculateSimilarity(A, B)`. -/
theorem offset_lowers_similarity (A B : GestureData ℝ) (δ : ℝ)
    (hm : 1 ≤ min A.samples B.samples) (hδ : 0 < δ)
    (hge : ∀ i : Nat, (i : Int) < min A.samples B.samples →
      A.x i ≤ B.x i ∧ A.y i ≤ B.y i ∧ A.z i ≤ B.z i) :
    ∃ s s' : ℝ, calculateSimilarity Real.sqrt A B = some s ∧
      calculateSimilarity Real.sqrt A (B.offset δ) = some s' ∧ s' ≤ s := by
  have hne : min A.samples B.samples ≠ 0 := by omega
  have hne' : min A.samples (B.offset δ).samples ≠ 0 := hne
  have hm' : 1 ≤ min A.samples (B.offset δ).samples := hm
  refine ⟨_, _, calculateSimilarity_eq_mean Real.sqrt A B hne,
    calculateSimilarity_eq_mean Real.sqrt A (B.offset δ) hne', ?_⟩
  have hD := meanDistance_nonneg A B hm
  have hmono : meanDistance Real.sqrt A B ≤ meanDistance Real.sqrt A (B.offset δ) := by
    have hpos : (0 : ℝ) ≤ ((min A.samples B.samples : Int) : ℝ) := by
      exact_mod_cast (by omega : (0 : Int) ≤ min A.samples B.samples)
    unfold meanDistance
    show _ / ((min A.samples B.samples : Int) : ℝ) ≤ _ / ((min A.samples B.samples : Int) : ℝ)
    apply div_le_div_of_nonneg_right _ hpos
    apply Finset.sum_le_sum
    intro i hi
    have hi' : (i : Int) < min A.samples B.samples := by
      have := Finset.mem_range.1 hi
      change i < (min A.samples B.samples).toNat at this
      omega
    obtain ⟨hx, hy, hz⟩ := hge i hi'
    apply Real.sqrt_le_sqrt
    simp only [GestureData.offset]
    nlinarith [mul_nonneg hδ.le (sub_nonneg.2 hx), mul_nonneg hδ.le (sub_nonneg.2 hy),
      mul_nonneg hδ.le (sub_nonneg.2 hz), sq_nonneg δ]
  exact one_div_le_one_div_of_le (by linarith) (by linarith)

theorem offset_lowers_similarity_witness :
    1 ≤ min (GestureData.const 0 0 0 1 : GestureData ℝ).samples
      (GestureData.const 1 1 1 1 : GestureData ℝ).samples ∧
    (0 : ℝ) < 1 ∧
    ∃ s s' : ℝ,
      calculateSimilarity Real.sqrt (GestureData.const 0 0 0 1)
        (GestureData.const 1 1 1 1) = some s ∧
      calculateSimilarity Real.sqrt (GestureData.const 0 0 0 1)
        ((GestureData.const 1 1 1 1).offset 1) = some s' ∧ s' ≤ s :=
  ⟨by simp [GestureData.const], one_pos,
    offset_lowers_similarity (GestureData.const 0 0 0 1) (GestureData.const 1 1 1 1) 1
      (by simp [GestureData.const]) one_pos
      (fun _ _ => by simp [GestureData.const])⟩

/-- C10: starting from the power-on state (`gestureStored = false`,
`isRecordMode = true`), after every finite run of main-loop iterations
`isRecordMode = false` implies `gestureStored = true`, and the "No gesture
stored" branch of `verifyGesture` has never been executed. -/
theorem verify_mode_has_stored_gesture {α : Type} [LinearOrderedField α]
    (sqrt : α → α) (ps : List (Nat × (Nat → Int) × (Nat → α × α × α))) :
    ((mainLoop sqrt Engine.powerOn ps).isRecordMode = false →
      (mainLoop sqrt Engine.powerOn ps).gestureStored = true) ∧
    Msg.noGestureStored ∉ (mainLoop sqrt Engine.powerOn ps).out :=
  mainLoop_invariant sqrt ps Engine.powerOn (by simp [Engine.powerOn])
    (by simp [Engine.powerOn])

/-! ## Debounce -/

/-- C7: for every sequence of rising edges with non-decreasing timestamps fed to
`handleButton`, with the debounce timer started at boot time `t0`, any two edges
for which `BUTTON_FLAG` is set have timestamps that differ by at least 200 ms. -/
theorem accepted_edges_200ms_apart (t0 : Int) (ts : List Int)
    (_hts : ts.Pairwise (fun a c => a ≤ c)) :
    (feedEdges (ButtonState.boot t0) ts).Pairwise (fun a c => a + 200 ≤ c) :=
  feedEdges_pairwise (ButtonState.boot t0) ts

theorem accepted_edges_200ms_apart_witness :
    [(100 : Int), 300, 450, 501, 700, 702, 1000].Pairwise (fun a c => a ≤ c) ∧
    (feedEdges (ButtonState.boot 0) [100, 300, 450, 501, 700, 702, 1000]).Pairwise
      (fun a c => a + 200 ≤ c) :=
  ⟨by decide, accepted_edges_200ms_apart 0 [100, 300, 450, 501, 700, 702, 1000] (by decide)⟩

/-- C8 (as stated, refuted): with the debounce timer started at `t = 0`, the
edges at `t = 0, 50, 150, 250` do not set `BUTTON_FLAG` twice, and the edge at
`t = 0` is not among the accepted ones. -/
theorem edge_at_boot_is_dropped :
    feedEdges (ButtonState.boot 0) [0, 50, 150, 250] ≠ [0, 250] ∧
    (feedEdges (ButtonState.boot 0) [0, 50, 150, 250]).length ≠ 2 ∧
    (handleButton 0 (ButtonState.boot 0)).2 = false := by
  decide

/-- C8 (amended): with the debounce timer started at `t = 0`, feeding
`handleButton` rising edges at `t = 0, 50, 150, 250` ms sets `BUTTON_FLAG`
exactly once, for the edge at `t = 250`, and drops the edges at 0, 50 and 150. -/
theorem debounce_scenario :
    feedEdges (ButtonState.boot 0) [0, 50, 150, 250] = [250] := by
  decide

/-! ## Capture bound -/

/-- C9: for every sequence of clock readings, the capture loop of `recordGesture`
and of `verifyGesture` terminates with a sample count `n ≤ MAX_SAMPLES = 100`
(stored as `samples`, so `0 ≤ samples ≤ 100`); the buffer indices written are
`0, …, n - 1`, all strictly below 100; `n = min(100, k)` when the first `k` loop
tests read the clock below `GESTURE_DURATION = 3000` and test `k` does not, and
`n = 100` when every test reads below 3000; when the clock first reaches 3000
after 40 samples, `n = 40`. -/
theorem capture_bound {α : Type} [Zero α] (clock : Nat → Int)
    (gyro : Nat → α × α × α) :
    (capture clock gyro).sampleCount ≤ MAX_SAMPLES ∧
    (capture clock gyro).buffer.samples = ((capture clock gyro).sampleCount : Int) ∧
    (0 ≤ (capture clock gyro).buffer.samples ∧ (capture clock gyro).buffer.samples ≤ 100) ∧
    (capture clock gyro).written = List.range (capture clock gyro).sampleCount ∧
    (∀ i ∈ (capture clock gyro).written, i < 100) ∧
    (∀ k : Nat, (∀ i, i < k → clock i < GESTURE_DURATION) → ¬ clock k < GESTURE_DURATION →
      (capture clock gyro).sampleCount = min 100 k) ∧
    ((∀ i, clock i < GESTURE_DURATION) → (capture clock gyro).sampleCount = 100) ∧
    ((∀ i, i < 40 → clock i < 3000) → 3000 ≤ clock 40 →
      (capture clock gyro).sampleCount = 40) ∧
    (∀ s : Engine α,
      (recordGesture clock gyro s).savedGesture.samples =
        ((capture clock gyro).sampleCount : Int)) := by
  have hle := captureLoop_count_le clock gyro (GestureData.zeroed : GestureData α) 0 []
    (Nat.zero_le _)
  have hw := captureLoop_written clock gyro (GestureData.zeroed : GestureData α) 0 []
  have hbelow := captureLoop_below clock gyro (GestureData.zeroed : GestureData α) 0 []
  have hexit := captureLoop_exit clock gyro (GestureData.zeroed : GestureData α) 0 []
  have hcount : (capture clock gyro).sampleCount =
      (captureLoop clock gyro (GestureData.zeroed : GestureData α) 0 []).sampleCount := rfl
  have hwritten : (capture clock gyro).written =
      (captureLoop clock gyro (GestureData.zeroed : GestureData α) 0 []).written := rfl
  have hsamples : (capture clock gyro).buffer.samples =
      ((capture clock gyro).sampleCount : Int) := rfl
  rw [hcount] at hsamples ⊢
  rw [hwritten]
  generalize (captureLoop clock gyro (GestureData.zeroed : GestureData α) 0 []).sampleCount
    = n at hle hw hbelow hexit hsamples ⊢
  have hmax : MAX_SAMPLES = 100 := rfl
  have hdur : GESTURE_DURATION = 3000 := rfl
  rw [hmax] at hle hexit
  have hk : ∀ k : Nat, (∀ i, i < k → clock i < GESTURE_DURATION) →
      ¬ clock k < GESTURE_DURATION → n = min 100 k := by
    intro k hk1 hk2
    have h1 : ¬ k < n := fun hlt => hk2 (hbelow k (Nat.zero_le _) hlt)
    by_cases hn : n < 100
    · have h2 : ¬ n < k := fun hlt => hexit hn (hk1 n hlt)
      omega
    · omega
  refine ⟨by omega, hsamples, ⟨by omega, by omega⟩, ?_, ?_, hk, ?_, ?_, ?_⟩
  · rw [hw, List.range_eq_range']
    simp
  · intro i hi
    rw [hw] at hi
    simp at hi
    omega
  · intro hall
    by_cases hn : n < 100
    · exact absurd (hall n) (hexit hn)
    · omega
  · intro h40 hstop
    rw [hk 40 (fun i hi => by rw [hdur]; exact h40 i hi) (by rw [hdur]; omega)]
    rfl
  · intro s
    exact hsamples

theorem capture_bound_witness :
    (∀ i, i < 40 → clock75 i < 3000) ∧ 3000 ≤ clock75 40 ∧
    (capture clock75 gyroAtRest).sampleCount = 40 :=
  ⟨by decide, by decide,
    (capture_bound clock75 gyroAtRest).2.2.2.2.2.2.2.1 (by decide) (by decide)⟩

end Sentry
